import Mathlib

/-!
Shallow embedding of the RDS parameter-group management core of the
aws-broker repository (`services/rds/parameter_group.go`) together with the
instance diff/merge operation exercised by `TestModifyInstance`.

Conventions of the embedding:
* Go `*string` / `*bool` fields become `Option String` / `Option Bool`.
* The AWS control plane (`rdsiface.RDSAPI`) becomes an explicit record of
  response functions (`Svc`); each adapter operation threads the possibly
  mutated `RDSInstance` through its result, since the Go code mutates the
  instance through a pointer.
* A Go runtime fault (nil-pointer dereference or index out of range) is the
  explicit `RunRes.fault` outcome.
* The unbounded `for` loop of `getDefaultEngineParameter` is embedded with an
  explicit fuel argument: `none` means the loop is still running after `fuel`
  page fetches.
-/

namespace AwsBroker

/-- An error coming back from the AWS control plane (`awserr.Error`):
an error code and a message. -/
structure AwsErr where
  code : String
  message : String
deriving DecidableEq

/-- Outcome of one adapter operation: success, a propagated error, or a Go
runtime fault (nil dereference / index out of range). -/
inductive RunRes (α : Type) where
  | ok (a : α)
  | err (e : AwsErr)
  | fault
deriving DecidableEq

/-- One element of `DescribeDBEngineVersionsOutput.DBEngineVersions`; the Go
field `DBParameterGroupFamily` is a `*string`, hence an `Option String`. -/
structure DBEngineVersion where
  DBParameterGroupFamily : Option String
deriving DecidableEq

/-- One page of `DescribeEngineDefaultParameters`: the parameters on the page
(name/value pairs, in page order) and the continuation marker (`*string`). -/
structure EngineDefaultsPage where
  parameters : List (String × String)
  marker : Option String
deriving DecidableEq

/-- The control-plane operations the core invokes (`rdsiface.RDSAPI`), as
response functions.  `describeEngineDefaultParameters` takes the family and the
current continuation marker. -/
structure Svc where
  describeDBEngineVersions : String → Except AwsErr (List DBEngineVersion)
  describeDBParameters : String → Except AwsErr Unit
  createDBParameterGroup : String → String → String → Except AwsErr Unit
  modifyDBParameterGroup : String → List (String × String) → Except AwsErr Unit
  describeEngineDefaultParameters : String → Option String → Except AwsErr EngineDefaultsPage
  deleteDBParameterGroup : String → Except AwsErr Unit

/-- The persisted instance record.  Fields are the ones read or written by
`parameter_group.go` and `TestModifyInstance`.  `EnablePgCron` is an
`Option Bool` (`*bool` in the tests, set with `aws.Bool`). -/
structure RDSInstance where
  Database : String := ""
  DbType : String := ""
  DbVersion : String := ""
  AllocatedStorage : Nat := 0
  BackupRetentionPeriod : Nat := 0
  BinaryLogFormat : String := ""
  EnableFunctions : Bool := false
  EnablePgCron : Option Bool := none
  ParameterGroupFamily : String := ""
deriving DecidableEq

/-- Process-wide feature settings (`config.Settings`), reduced to the field the
core reads. -/
structure Settings where
  EnableFunctionsFeature : Bool := false
deriving DecidableEq

/-- Caller-supplied update options for a modify request.  Zero values are the
"no change requested" sentinels; the pg-cron flag is an optional boolean. -/
structure Options where
  AllocatedStorage : Nat := 0
  BackupRetentionPeriod : Nat := 0
  BinaryLogFormat : String := ""
  EnablePgCron : Option Bool := none
deriving DecidableEq

/-- Catalog plan (`catalog.RDSPlan`), reduced to the field the diff/merge
engine reads. -/
structure RDSPlan where
  DbVersion : String := ""
deriving DecidableEq

/-- `pGroupPrefixReal`: the fixed prefix of every parameter group the broker
creates. -/
def pGroupPrefix : String := "cg-aws-broker-"

/-- The pg_cron shared library name (`pgCronLibraryName`). -/
def pgCronLibraryName : String := "pg_cron"

/-- The stored pg-cron flag read as a boolean.  `parameter_group.go` reads
`i.EnablePgCron` as a plain Go boolean while the tests store a `*bool`; the
embedding reads the optional with "unset counts as false". -/
def pgCronEnabled (i : RDSInstance) : Bool :=
  i.EnablePgCron.getD false

/-- `needCustomParameters`: the sequence of early-return `if` checks of the Go
function — mysql with functions enabled and allowed, mysql with a binary log
format set, or postgres with pg-cron enabled. -/
def needCustomParameters (i : RDSInstance) (s : Settings) : Bool :=
  if i.EnableFunctions && s.EnableFunctionsFeature && (i.DbType == "mysql") then true
  else if i.BinaryLogFormat ≠ "" && (i.DbType == "mysql") then true
  else if pgCronEnabled i && (i.DbType == "postgres") then true
  else false

/-- Modelled from the spec: `FormatDBName` is not under src/ (only
`TestFormatDBName`, which checks determinism, is).  The spec fixes only that it
is a deterministic, stable transform of the stored database name, so it is
modelled as that stored name. -/
def FormatDBName (i : RDSInstance) : String :=
  i.Database

/-- Modelled from the spec: the diff/merge operation `modify` is not under
src/ (only `TestModifyInstance` is).  Field policies follow spec section 4.1 in
its order — allocated storage (with the decrease validation error), backup
retention period, binary log format, pg-cron flag, plan-supplied engine
version — except that the pg-cron clause follows `TestModifyInstance`: the
test case "enable PG cron not specified on options, true on existing instance"
expects the stored flag cleared when the option is absent, so the options value
is copied unconditionally.  Returns the validation error (if any) and the
updated instance. -/
def modify (options : Options) (plan : RDSPlan) (s : Settings) (i : RDSInstance) :
    Option String × RDSInstance :=
  let storageStep : Option String × RDSInstance :=
    if options.AllocatedStorage = 0 then (none, i)
    else if options.AllocatedStorage < i.AllocatedStorage then
      (some "storage cannot be decreased", i)
    else (none, { i with AllocatedStorage := options.AllocatedStorage })
  let i1 := storageStep.2
  let i2 :=
    if options.BackupRetentionPeriod = 0 then i1
    else { i1 with BackupRetentionPeriod := options.BackupRetentionPeriod }
  let i3 :=
    if options.BinaryLogFormat = "" then i2
    else { i2 with BinaryLogFormat := options.BinaryLogFormat }
  let i4 := { i3 with EnablePgCron := options.EnablePgCron }
  let i5 :=
    if plan.DbVersion = "" then i4
    else { i4 with DbVersion := plan.DbVersion }
  (storageStep.1, i5)

/-- A tri-state reading of the pg-cron clause, following the spec's words
(section 4.1: "If absent in `options`, leave `instance`'s existing value
untouched") instead of `TestModifyInstance`; kept for comparison with the
behaviour the test expects. -/
def modifyTriStatePgCron (options : Options) (plan : RDSPlan) (s : Settings)
    (i : RDSInstance) : Option String × RDSInstance :=
  let base := modify options plan s i
  let kept :=
    match options.EnablePgCron with
    | none => i.EnablePgCron
    | some b => some b
  (base.1, { base.2 with EnablePgCron := kept })

/-- The leading numeric version token matched by the Go regular expression
`^\d+\.*\d*` (one or more digits, then any number of literal dots, then any
number of digits, anchored at the start); `regexp.Find` returns nil — read as
the empty string — when the version does not start with a digit. -/
def versionToken (v : String) : String :=
  let cs := v.toList
  let d1 := cs.takeWhile Char.isDigit
  if d1.isEmpty then ""
  else
    let r1 := cs.dropWhile Char.isDigit
    let dots := r1.takeWhile (fun c => c == '.')
    let d2 := (r1.dropWhile (fun c => c == '.')).takeWhile Char.isDigit
    String.mk (d1 ++ dots ++ d2)

/-- `getParameterGroupFamily`: memoized no-op when the family is already set;
when the version is empty, asks the control plane for the default engine
version and dereferences `DBEngineVersions[0].DBParameterGroupFamily` (a fault
when the list is empty or the family pointer is nil); otherwise derives the
family locally as engine type plus the leading numeric version token. -/
def getParameterGroupFamily (svc : Svc) (i : RDSInstance) : RunRes RDSInstance :=
  if i.ParameterGroupFamily ≠ "" then .ok i
  else if i.DbVersion = "" then
    match svc.describeDBEngineVersions i.DbType with
    | .error e => .err e
    | .ok versions =>
      match versions with
      | [] => .fault
      | v :: _ =>
        match v.DBParameterGroupFamily with
        | none => .fault
        | some fam => .ok { i with ParameterGroupFamily := fam }
  else .ok { i with ParameterGroupFamily := i.DbType ++ versionToken i.DbVersion }

/-- `checkIfParameterGroupExists`: any successful describe-parameters call
means "exists"; any error means "does not exist". -/
def checkIfParameterGroupExists (svc : Svc) (pgroupName : String) : Bool :=
  match svc.describeDBParameters pgroupName with
  | .ok _ => true
  | .error _ => false

/-- First parameter on a page whose name equals the requested name, in page
order (the inner `for` loop of `getDefaultEngineParameter`). -/
def findParamValue (params : List (String × String)) (paramName : String) : Option String :=
  match params with
  | [] => none
  | (n, v) :: rest => if n = paramName then some v else findParamValue rest paramName

/-- The Go break condition `Marker == nil || *Marker == ""`. -/
def markerDone (m : Option String) : Bool :=
  match m with
  | none => true
  | some s => s = ""

/-- The unbounded pagination loop of `getDefaultEngineParameter`, with explicit
fuel: fetch the page for the current marker, return the matching parameter's
value on a match, return `""` with no error when the page's marker is empty or
absent, otherwise continue with the page's marker.  `none` means the loop is
still running after `fuel` fetches — the source loop has no page bound of its
own. -/
def defaultParamLoop (svc : Svc) (family : String) (paramName : String) :
    Option String → Nat → Option (Except AwsErr String)
  | _, 0 => none
  | marker, fuel + 1 =>
    match svc.describeEngineDefaultParameters family marker with
    | .error e => some (.error e)
    | .ok page =>
      match findParamValue page.parameters paramName with
      | some v => some (.ok v)
      | none =>
        if markerDone page.marker then some (.ok "")
        else defaultParamLoop svc family paramName page.marker fuel

/-- `getDefaultEngineParameter`: resolve the family, then page through the
engine-default parameter catalog starting with no marker. -/
def getDefaultEngineParameter (svc : Svc) (fuel : Nat) (paramName : String)
    (i : RDSInstance) : Option (RunRes (String × RDSInstance)) :=
  match getParameterGroupFamily svc i with
  | .fault => some .fault
  | .err e => some (.err e)
  | .ok i1 =>
    match defaultParamLoop svc i1.ParameterGroupFamily paramName none fuel with
    | none => none
    | some (.error e) => some (.err e)
    | some (.ok v) => some (.ok (v, i1))

/-- `buildCustomSharePreloadLibrariesParam`: the custom library, comma-joined
in front of the engine's default `shared_preload_libraries` value when that
default is non-empty. -/
def buildCustomSharePreloadLibrariesParam (svc : Svc) (fuel : Nat)
    (i : RDSInstance) (customLibrary : String) : Option (RunRes (String × RDSInstance)) :=
  match getDefaultEngineParameter svc fuel "shared_preload_libraries" i with
  | none => none
  | some .fault => some .fault
  | some (.err e) => some (.err e)
  | some (.ok (defaultLibs, i1)) =>
    let value := if defaultLibs = "" then customLibrary
      else customLibrary ++ "," ++ defaultLibs
    some (.ok (value, i1))

/-- A derived parameter set: engine type to parameter name/value pairs, as an
association list (the Go `map[string]map[string]string`). -/
def CustomParams : Type := List (String × List (String × String))

/-- First value bound to a key in an association list. -/
def assocLookup {β : Type} (l : List (String × β)) (key : String) : Option β :=
  match l with
  | [] => none
  | (k, v) :: rest => if k = key then some v else assocLookup rest key

/-- The mysql entries built by `getCustomParameters`: always
`log_bin_trust_function_creators` ("1" when both the instance flag and the
settings feature flag are set, else "0"), then `binlog_format` when the stored
format is non-empty. -/
def mysqlCustomParams (i : RDSInstance) (s : Settings) : List (String × String) :=
  (if i.EnableFunctions && s.EnableFunctionsFeature then
    [("log_bin_trust_function_creators", "1")]
  else
    [("log_bin_trust_function_creators", "0")])
  ++ (if i.BinaryLogFormat ≠ "" then [("binlog_format", i.BinaryLogFormat)] else [])

/-- `getCustomParameters`: for mysql, the mysql entries above; for postgres
with pg-cron, the composed `shared_preload_libraries` value (an empty postgres
entry without pg-cron).  The Go function tests `DbType == "mysql"` and
`DbType == "postgres"` in sequence; a single `DbType` value can match at most
one of them. -/
def getCustomParameters (svc : Svc) (fuel : Nat) (i : RDSInstance) (s : Settings) :
    Option (RunRes (CustomParams × RDSInstance)) :=
  if i.DbType = "mysql" then some (.ok ([("mysql", mysqlCustomParams i s)], i))
  else if i.DbType = "postgres" then
    if pgCronEnabled i then
      match buildCustomSharePreloadLibrariesParam svc fuel i pgCronLibraryName with
      | none => none
      | some .fault => some .fault
      | some (.err e) => some (.err e)
      | some (.ok (v, i1)) =>
        some (.ok ([("postgres", [("shared_preload_libraries", v)])], i1))
    else some (.ok ([("postgres", [])], i))
  else some (.ok ([], i))

/-- `fmt.Errorf("<context>: %w", err)`: the wrapped error keeps the cause's
code here, only the message gains context (the claims never inspect wrapped
codes). -/
def wrapErr (ctx : String) (e : AwsErr) : AwsErr :=
  { code := e.code, message := ctx ++ e.message }

/-- `createOrModifyCustomParameterGroup`: compute the group name from the fixed
prefix and the deterministic database-name transform; if the group does not
exist, resolve the family and create it; then unconditionally apply the
instance's engine-type parameter list with immediate-apply semantics. -/
def createOrModifyCustomParameterGroup (svc : Svc) (i : RDSInstance)
    (customparams : CustomParams) : RunRes (String × RDSInstance) :=
  let pgroupName := pGroupPrefix ++ FormatDBName i
  let afterCreate : RunRes RDSInstance :=
    if checkIfParameterGroupExists svc pgroupName then .ok i
    else
      match getParameterGroupFamily svc i with
      | .fault => .fault
      | .err e => .err (wrapErr "encounted error getting parameter group family: " e)
      | .ok i1 =>
        match svc.createDBParameterGroup pgroupName i1.ParameterGroupFamily
            ("aws broker parameter group for " ++ FormatDBName i1) with
        | .error e => .err (wrapErr "encounted error when creating database: " e)
        | .ok _ => .ok i1
  match afterCreate with
  | .fault => .fault
  | .err e => .err e
  | .ok i1 =>
    match svc.modifyDBParameterGroup pgroupName ((assocLookup customparams i.DbType).getD []) with
    | .error e => .err e
    | .ok _ => .ok (pgroupName, i1)

/-- `ProvisionCustomParameterGroupIfNecessary`: empty name and no error when no
custom parameters are needed; otherwise derive the parameters and create or
modify the custom group, propagating wrapped errors. -/
def ProvisionCustomParameterGroupIfNecessary (svc : Svc) (fuel : Nat)
    (i : RDSInstance) (s : Settings) : Option (RunRes (String × RDSInstance)) :=
  if needCustomParameters i s = false then some (.ok ("", i))
  else
    match getCustomParameters svc fuel i s with
    | none => none
    | some .fault => some .fault
    | some (.err e) => some (.err (wrapErr "encountered error getting custom parameters: " e))
    | some (.ok (params, i1)) =>
      match createOrModifyCustomParameterGroup svc i1 params with
      | .fault => some .fault
      | .err e => some (.err (wrapErr "encountered error applying parameter group: " e))
      | .ok r => some (.ok r)

/-- The broker-prefix test of the cleanup sweep: the Go code matches the
regular expression `^` plus the prefix, which holds no metacharacters, so a
name matches exactly when it starts with the prefix (a structural character
comparison, so that concrete sweeps evaluate). -/
def matchesGroupPrefix (name : String) : Bool :=
  pGroupPrefix.toList.isPrefixOf name.toList

/-- One group considered by the cleanup sweep: when the name starts with the
broker prefix, attempt the delete; an `InvalidDBParameterGroupState`
failure is skipped silently, any other failure is logged as a fault and the
sweep continues.  Returns (delete attempts, fault-logged names) for this
group. -/
def sweepGroupName (deleteFn : String → Except AwsErr Unit) (name : String) :
    List String × List String :=
  if matchesGroupPrefix name then
    match deleteFn name with
    | .ok _ => ([name], [])
    | .error e =>
      if e.code = "InvalidDBParameterGroupState" then ([name], []) else ([name], [name])
  else ([], [])

/-- The body of `cleanupCustomParameterGroups` over one flattened list of group
names (the page callback always returns `true`, so every page is visited and
the groups are processed in listing order). -/
def sweepNames (deleteFn : String → Except AwsErr Unit) :
    List String → List String × List String
  | [] => ([], [])
  | name :: rest =>
    let r := sweepGroupName deleteFn name
    let acc := sweepNames deleteFn rest
    (r.1 ++ acc.1, r.2 ++ acc.2)

/-- `cleanupCustomParameterGroups`, with the control plane's paged group
listing given as a list of pages of group names and the delete call's outcome
as a function.  Returns the names for which a delete was attempted (in order)
and the names whose delete failure was logged as a real fault. -/
def cleanupCustomParameterGroups (pages : List (List String))
    (deleteFn : String → Except AwsErr Unit) : List String × List String :=
  sweepNames deleteFn pages.flatten

/-- A control-plane stub whose calls all succeed with empty data; the concrete
services below override individual operations. -/
def baseSvc : Svc where
  describeDBEngineVersions := fun _ => .ok []
  describeDBParameters := fun _ => .ok ()
  createDBParameterGroup := fun _ _ _ => .ok ()
  modifyDBParameterGroup := fun _ _ => .ok ()
  describeEngineDefaultParameters := fun _ _ => .ok { parameters := [], marker := none }
  deleteDBParameterGroup := fun _ => .ok ()

/-- An adversarial control plane whose engine-default pages never match and
never end: every page is fetched successfully, holds no parameters, and always
carries a non-empty continuation marker. -/
def badMarkerSvc : Svc :=
  { baseSvc with
    describeEngineDefaultParameters := fun _ _ =>
      .ok { parameters := [], marker := some "next" } }

/-- A control plane whose default-engine-version query succeeds with an empty
version list — the response `getParameterGroupFamily` dereferences blindly. -/
def emptyVersionsSvc : Svc :=
  { baseSvc with describeDBEngineVersions := fun _ => .ok [] }

/-- The pagination loop never produces a result, whatever the fuel: the
embedded counterpart of the Go `for` loop running forever. -/
def loopRunsForever (svc : Svc) (family paramName : String) : Prop :=
  ∀ marker fuel, defaultParamLoop svc family paramName marker fuel = none

/-! ## Validation of the spec-modelled `modify` against `TestModifyInstance`

Each conjunct is one named case of the Go test table, in its order; the
embedded `modify` reproduces every expectation, including the pg-cron case
"enable PG cron not specified on options, true on existing instance", whose
expected instance has the stored flag cleared. -/

theorem modify_matches_TestModifyInstance :
    modify { AllocatedStorage := 20 } {} {} { AllocatedStorage := 10 }
      = (none, { AllocatedStorage := 20 })
    ∧ modify { AllocatedStorage := 10 } {} {} { AllocatedStorage := 20 }
      = (some "storage cannot be decreased", { AllocatedStorage := 20 })
    ∧ modify { AllocatedStorage := 0 } {} {} { AllocatedStorage := 20 }
      = (none, { AllocatedStorage := 20 })
    ∧ modify { BackupRetentionPeriod := 20 } {} {} { BackupRetentionPeriod := 10 }
      = (none, { BackupRetentionPeriod := 20 })
    ∧ modify { BackupRetentionPeriod := 0 } {} {} { BackupRetentionPeriod := 20 }
      = (none, { BackupRetentionPeriod := 20 })
    ∧ modify { BinaryLogFormat := "ROW" } {} {} {} = (none, { BinaryLogFormat := "ROW" })
    ∧ modify { EnablePgCron := some true } {} {} {} = (none, { EnablePgCron := some true })
    ∧ modify {} {} {} {} = (none, {})
    ∧ modify {} {} {} { EnablePgCron := some true } = (none, {})
    ∧ modify {} { DbVersion := "12" } {} {} = (none, { DbVersion := "12" }) := by
  decide

/-- The tri-state reading of the spec's words fails the test table: on the test
case "enable PG cron not specified on options, true on existing instance" it
keeps the stored flag, while the test expects the zero-valued instance. -/
theorem triState_fails_TestModifyInstance :
    modifyTriStatePgCron {} {} {} { EnablePgCron := some true }
      ≠ (none, ({} : RDSInstance)) := by
  decide

/-! ## Claims -/

/-- C1 counterexample: the claim says an absent pg-cron option leaves the
instance's stored value untouched, but on the input of the test case
"enable PG cron not specified on options, true on existing instance"
(`options = {}`, stored flag `some true`) the modify operation clears the
stored flag — the result is the test's expected zero-valued instance, whose
pg-cron field differs from the existing one. -/
theorem modify_pgcron_absent_clears_counterexample :
    modify {} {} {} { EnablePgCron := some true } = (none, ({} : RDSInstance))
    ∧ (modify {} {} {} { EnablePgCron := some true }).2.EnablePgCron
      ≠ ({ EnablePgCron := some true } : RDSInstance).EnablePgCron := by
  decide

/-- C1 (amended): the modify operation always copies the options' pg-cron
value onto the instance — a present true or false overwrites, including
flipping true to false, and an absent flag resets the stored value to unset
rather than leaving it untouched. -/
theorem modify_pgcron_overwrite_amended (o : Options) (p : RDSPlan) (s : Settings)
    (i : RDSInstance) : (modify o p s i).2.EnablePgCron = o.EnablePgCron := by
  unfold modify
  dsimp only
  split_ifs <;> rfl

/-- C3: `needCustomParameters` is true exactly for mysql with functions
enabled and allowed, mysql with a binary log format set, or postgres with
pg-cron enabled; any other engine type yields false. -/
theorem needCustomParameters_characterization (i : RDSInstance) (s : Settings) :
    (needCustomParameters i s = true ↔
      ((i.DbType = "mysql" ∧ i.EnableFunctions = true ∧ s.EnableFunctionsFeature = true)
        ∨ (i.DbType = "mysql" ∧ i.BinaryLogFormat ≠ "")
        ∨ (i.DbType = "postgres" ∧ pgCronEnabled i = true)))
    ∧ (i.DbType ≠ "mysql" → i.DbType ≠ "postgres" → needCustomParameters i s = false) := by
  constructor
  · constructor
    · intro h
      unfold needCustomParameters at h
      split_ifs at h with h1 h2 h3
      · simp only [Bool.and_eq_true, beq_iff_eq] at h1
        exact Or.inl ⟨h1.2, h1.1.1, h1.1.2⟩
      · simp only [Bool.and_eq_true, beq_iff_eq, decide_eq_true_eq] at h2
        exact Or.inr (Or.inl ⟨h2.2, h2.1⟩)
      · simp only [Bool.and_eq_true, beq_iff_eq] at h3
        exact Or.inr (Or.inr ⟨h3.2, h3.1⟩)
    · intro h
      unfold needCustomParameters
      split_ifs with g1 g2 g3 <;> try rfl
      rcases h with ⟨hdb, hf, hs⟩ | ⟨hdb, hb⟩ | ⟨hdb, hp⟩
      · simp [hdb, hf, hs] at g1
      · simp [hdb, hb] at g2
      · simp [hdb, hp] at g3
  · intro h1 h2
    unfold needCustomParameters
    split_ifs with g1 g2 g3 <;> simp_all

/-- C3 witness: the characterization applied to concrete instances — a mysql
instance with a binary log format needs custom parameters, and an engine type
outside mysql and postgres never does. -/
theorem needCustomParameters_characterization_witness :
    needCustomParameters { DbType := "mysql", BinaryLogFormat := "ROW" } {} = true
    ∧ needCustomParameters { DbType := "oracle-se2", BinaryLogFormat := "ROW" } {} = false := by
  constructor
  · exact (needCustomParameters_characterization
      { DbType := "mysql", BinaryLogFormat := "ROW" } {}).1.mpr
      (Or.inr (Or.inl ⟨rfl, by decide⟩))
  · exact (needCustomParameters_characterization
      { DbType := "oracle-se2", BinaryLogFormat := "ROW" } {}).2 (by decide) (by decide)

/-- C4: the allocated-storage policy of the modify operation — a zero option
is a no-op, a decrease fails with the validation error and leaves storage
unchanged, and any other value is written through exactly. -/
theorem modify_storage_policy (o : Options) (p : RDSPlan) (s : Settings) (i : RDSInstance) :
    (o.AllocatedStorage = 0 →
      (modify o p s i).1 = none
      ∧ (modify o p s i).2.AllocatedStorage = i.AllocatedStorage)
    ∧ (o.AllocatedStorage ≠ 0 → o.AllocatedStorage < i.AllocatedStorage →
      (modify o p s i).1 = some "storage cannot be decreased"
      ∧ (modify o p s i).2.AllocatedStorage = i.AllocatedStorage)
    ∧ (o.AllocatedStorage ≠ 0 → ¬ o.AllocatedStorage < i.AllocatedStorage →
      (modify o p s i).1 = none
      ∧ (modify o p s i).2.AllocatedStorage = o.AllocatedStorage) := by
  unfold modify
  dsimp only
  split_ifs <;> simp_all

/-- C4 witness: the storage policy applied to the three storage test cases of
`TestModifyInstance`. -/
theorem modify_storage_policy_witness :
    ((modify { AllocatedStorage := 0 } {} {} { AllocatedStorage := 20 }).2.AllocatedStorage = 20)
    ∧ ((modify { AllocatedStorage := 10 } {} {} { AllocatedStorage := 20 }).1
        = some "storage cannot be decreased")
    ∧ ((modify { AllocatedStorage := 20 } {} {} { AllocatedStorage := 10 }).2.AllocatedStorage = 20) := by
  refine ⟨?_, ?_, ?_⟩
  · exact ((modify_storage_policy { AllocatedStorage := 0 } {} {}
      { AllocatedStorage := 20 }).1 rfl).2
  · exact ((modify_storage_policy { AllocatedStorage := 10 } {} {}
      { AllocatedStorage := 20 }).2.1 (by decide) (by decide)).1
  · exact ((modify_storage_policy { AllocatedStorage := 20 } {} {}
      { AllocatedStorage := 10 }).2.2 (by decide) (by decide)).2

/-- C7: the family resolver is a memoized no-op when the family is already
set — for every control plane, the instance comes back unchanged — and with an
empty family but a non-empty version it derives the family locally as the
engine type plus the leading numeric version token, again independently of the
control plane. -/
theorem family_resolver_memoized_and_local (i : RDSInstance) :
    (i.ParameterGroupFamily ≠ "" → ∀ svc : Svc, getParameterGroupFamily svc i = .ok i)
    ∧ (i.ParameterGroupFamily = "" → i.DbVersion ≠ "" → ∀ svc : Svc,
        getParameterGroupFamily svc i
          = .ok { i with ParameterGroupFamily := i.DbType ++ versionToken i.DbVersion }) := by
  constructor
  · intro h svc
    unfold getParameterGroupFamily
    simp [h]
  · intro h h2 svc
    unfold getParameterGroupFamily
    simp [h, h2]

/-- C7 witness: a postgres instance with family already set is untouched even
by a control plane returning no versions, and one with version "12.11" gets
family "postgres12.11" from the local derivation. -/
theorem family_resolver_memoized_and_local_witness :
    getParameterGroupFamily emptyVersionsSvc
      { DbType := "postgres", ParameterGroupFamily := "postgres12" }
      = .ok { DbType := "postgres", ParameterGroupFamily := "postgres12" }
    ∧ getParameterGroupFamily baseSvc { DbType := "postgres", DbVersion := "12.11" }
      = .ok { DbType := "postgres", DbVersion := "12.11", ParameterGroupFamily := "postgres12.11" } := by
  constructor
  · exact (family_resolver_memoized_and_local
      { DbType := "postgres", ParameterGroupFamily := "postgres12" }).1 (by decide) emptyVersionsSvc
  · have h := (family_resolver_memoized_and_local
      { DbType := "postgres", DbVersion := "12.11" }).2 rfl (by decide) baseSvc
    rw [h]
    decide

/-- Against the adversarial control plane that never returns an empty
continuation marker, the pagination loop never produces a result, for any fuel
and any starting marker. -/
theorem badMarkerSvc_never_returns :
    loopRunsForever badMarkerSvc "postgres12" "shared_preload_libraries" := by
  intro marker fuel
  induction fuel generalizing marker with
  | zero => rfl
  | succ n ih =>
    simp only [defaultParamLoop, badMarkerSvc, baseSvc, findParamValue, markerDone]
    simp only [String.reduceEq, if_false]
    exact ih _

/-- C2 counterexample: the claim says the lookup loop also terminates after a
bounded number of pages when the control plane never returns an empty
continuation marker; against the concrete control plane whose every page is
fetched successfully, has no parameters and always carries the marker "next",
the loop runs forever — no fuel makes it produce any result, fatal or
otherwise. -/
theorem default_lookup_unbounded_counterexample :
    loopRunsForever badMarkerSvc "postgres12" "shared_preload_libraries" :=
  badMarkerSvc_never_returns

/-- C2 (amended): the pagination loop stops — with the empty string and no
error — as soon as a fetched page has no match and its continuation marker is
empty or absent; but the code has no bounded-page guard, so a control plane
that never returns an empty marker makes the loop run forever. -/
theorem default_lookup_termination_amended :
    (∀ (svc : Svc) (family paramName : String) (marker : Option String)
        (page : EngineDefaultsPage) (fuel : Nat),
      svc.describeEngineDefaultParameters family marker = .ok page →
      findParamValue page.parameters paramName = none →
      markerDone page.marker = true →
      defaultParamLoop svc family paramName marker (fuel + 1) = some (.ok ""))
    ∧ loopRunsForever badMarkerSvc "postgres12" "shared_preload_libraries" := by
  constructor
  · intro svc family paramName marker page fuel h1 h2 h3
    rw [defaultParamLoop, h1]
    simp only [h2]
    rw [if_pos h3]
  · exact badMarkerSvc_never_returns

/-- C2 witness: the one-step termination applied to the control plane whose
single page is empty with an absent marker. -/
theorem default_lookup_termination_amended_witness :
    defaultParamLoop baseSvc "postgres12" "shared_preload_libraries" none 1
      = some (.ok "") :=
  default_lookup_termination_amended.1 baseSvc "postgres12" "shared_preload_libraries"
    none { parameters := [], marker := none } 0 rfl rfl rfl

/-- The family resolver only ever rewrites the `ParameterGroupFamily` field:
a successful resolution leaves the stored database name unchanged. -/
theorem getParameterGroupFamily_database (svc : Svc) (i j : RDSInstance)
    (h : getParameterGroupFamily svc i = .ok j) : j.Database = i.Database := by
  unfold getParameterGroupFamily at h
  split_ifs at h with h1 h2
  · cases h; rfl
  · split at h
    · cases h
    · split at h
      · cases h
      · split at h
        · cases h
        · cases h; rfl
  · cases h; rfl

/-- The default-parameter lookup leaves the stored database name unchanged. -/
theorem getDefaultEngineParameter_database (svc : Svc) (fuel : Nat) (paramName : String)
    (i : RDSInstance) (v : String) (j : RDSInstance)
    (h : getDefaultEngineParameter svc fuel paramName i = some (.ok (v, j))) :
    j.Database = i.Database := by
  unfold getDefaultEngineParameter at h
  split at h
  · cases h
  · cases h
  · rename_i i1 heq
    split at h
    · cases h
    · cases h
    · cases h
      exact getParameterGroupFamily_database svc i j heq

/-- Composing the preload-libraries value leaves the stored database name
unchanged. -/
theorem buildPreload_database (svc : Svc) (fuel : Nat) (i : RDSInstance)
    (lib : String) (v : String) (j : RDSInstance)
    (h : buildCustomSharePreloadLibrariesParam svc fuel i lib = some (.ok (v, j))) :
    j.Database = i.Database := by
  unfold buildCustomSharePreloadLibrariesParam at h
  split at h
  · cases h
  · cases h
  · cases h
  · rename_i defaultLibs i1 heq
    cases h
    exact getDefaultEngineParameter_database svc fuel "shared_preload_libraries" i defaultLibs j heq

/-- Deriving the custom parameter set leaves the stored database name
unchanged. -/
theorem getCustomParameters_database (svc : Svc) (fuel : Nat) (i : RDSInstance) (s : Settings)
    (params : CustomParams) (j : RDSInstance)
    (h : getCustomParameters svc fuel i s = some (.ok (params, j))) :
    j.Database = i.Database := by
  unfold getCustomParameters at h
  split_ifs at h with h1 h2 h3
  · cases h; rfl
  · split at h
    · cases h
    · cases h
    · cases h
    · rename_i v i1 heq
      cases h
      exact buildPreload_database svc fuel i pgCronLibraryName v j heq
  · cases h; rfl
  · cases h; rfl

/-- A successful create-or-modify call always returns the group name computed
from the fixed broker prefix and the deterministic database-name transform of
its input instance. -/
theorem createOrModify_name (svc : Svc) (i : RDSInstance) (params : CustomParams)
    (nm : String) (j : RDSInstance)
    (h : createOrModifyCustomParameterGroup svc i params = .ok (nm, j)) :
    nm = pGroupPrefix ++ FormatDBName i := by
  unfold createOrModifyCustomParameterGroup at h
  dsimp only at h
  split at h
  · cases h
  · cases h
  · split at h
    · cases h
    · cases h; rfl

/-- C5: when no custom parameters are needed the provisioning operation
returns the empty name and no error against every control plane (in
particular, regardless of any group-existence state); and every successful
provisioning of an instance that needs custom parameters returns exactly the
fixed broker prefix concatenated with the deterministic database-name
transform of the instance — so two successful calls on the same instance
return the same name. -/
theorem provision_group_name :
    (∀ (svc : Svc) (fuel : Nat) (i : RDSInstance) (s : Settings),
      needCustomParameters i s = false →
      ProvisionCustomParameterGroupIfNecessary svc fuel i s = some (.ok ("", i)))
    ∧ (∀ (svc : Svc) (fuel : Nat) (i : RDSInstance) (s : Settings) (nm : String) (j : RDSInstance),
      ProvisionCustomParameterGroupIfNecessary svc fuel i s = some (.ok (nm, j)) →
      needCustomParameters i s = true →
      nm = pGroupPrefix ++ FormatDBName i)
    ∧ (∀ (svc1 : Svc) (fuel1 : Nat) (svc2 : Svc) (fuel2 : Nat) (i : RDSInstance) (s : Settings)
        (nm1 : String) (j1 : RDSInstance) (nm2 : String) (j2 : RDSInstance),
      ProvisionCustomParameterGroupIfNecessary svc1 fuel1 i s = some (.ok (nm1, j1)) →
      ProvisionCustomParameterGroupIfNecessary svc2 fuel2 i s = some (.ok (nm2, j2)) →
      needCustomParameters i s = true → nm1 = nm2) := by
  have key : ∀ (svc : Svc) (fuel : Nat) (i : RDSInstance) (s : Settings) (nm : String)
      (j : RDSInstance),
      ProvisionCustomParameterGroupIfNecessary svc fuel i s = some (.ok (nm, j)) →
      needCustomParameters i s = true →
      nm = pGroupPrefix ++ FormatDBName i := by
    intro svc fuel i s nm j h hneed
    unfold ProvisionCustomParameterGroupIfNecessary at h
    rw [hneed] at h
    simp only [Bool.true_eq_false, if_false] at h
    split at h
    · cases h
    · cases h
    · cases h
    · rename_i params i1 heqGet
      split at h
      · cases h
      · cases h
      · rename_i r heqC
        rcases r with ⟨nm', j'⟩
        cases h
        have hname := createOrModify_name svc i1 params nm j heqC
        have hdb := getCustomParameters_database svc fuel i s params i1 heqGet
        rw [hname]
        unfold FormatDBName
        rw [hdb]
  refine ⟨?_, key, ?_⟩
  · intro svc fuel i s hneed
    unfold ProvisionCustomParameterGroupIfNecessary
    rw [hneed]
    rfl
  · intro svc1 fuel1 svc2 fuel2 i s nm1 j1 nm2 j2 h1 h2 hneed
    rw [key svc1 fuel1 i s nm1 j1 h1 hneed, key svc2 fuel2 i s nm2 j2 h2 hneed]

/-- C5 witness: a zero-valued instance needs no custom parameters and gets the
empty name; a mysql instance with a binary log format, provisioned against the
all-succeeding control plane, gets the prefixed deterministic name. -/
theorem provision_group_name_witness :
    ProvisionCustomParameterGroupIfNecessary baseSvc 0 {} {} = some (.ok ("", {}))
    ∧ "cg-aws-broker-mydb"
      = pGroupPrefix
        ++ FormatDBName { Database := "mydb", DbType := "mysql", BinaryLogFormat := "ROW" } := by
  constructor
  · exact provision_group_name.1 baseSvc 0 {} {} (by decide)
  · exact provision_group_name.2.1 baseSvc 0
      { Database := "mydb", DbType := "mysql", BinaryLogFormat := "ROW" } {}
      "cg-aws-broker-mydb"
      { Database := "mydb", DbType := "mysql", BinaryLogFormat := "ROW" }
      (by decide) (by decide)

/-- C6: for every mysql instance the derived parameter set has a mysql entry
whose list always binds `log_bin_trust_function_creators` — to "1" exactly
when both the instance's enable-functions flag and the settings' functions
feature flag are set, and to "0" otherwise, never omitted — and additionally
binds `binlog_format` to the stored format whenever that format is
non-empty. -/
theorem mysql_parameters_always_present (svc : Svc) (fuel : Nat) (i : RDSInstance)
    (s : Settings) (hdb : i.DbType = "mysql") :
    getCustomParameters svc fuel i s = some (.ok ([("mysql", mysqlCustomParams i s)], i))
    ∧ assocLookup (mysqlCustomParams i s) "log_bin_trust_function_creators"
      = some (if i.EnableFunctions && s.EnableFunctionsFeature then "1" else "0")
    ∧ (i.BinaryLogFormat ≠ "" →
      assocLookup (mysqlCustomParams i s) "binlog_format" = some i.BinaryLogFormat) := by
  refine ⟨?_, ?_, ?_⟩
  · unfold getCustomParameters
    rw [hdb]
    rfl
  · unfold mysqlCustomParams
    cases hf : (i.EnableFunctions && s.EnableFunctionsFeature) <;>
      simp [assocLookup]
  · intro hb
    unfold mysqlCustomParams
    cases hf : (i.EnableFunctions && s.EnableFunctionsFeature) <;>
      simp [assocLookup, hb]

/-- C6 witness: the mysql instance with a binary log format and no functions —
the parameter list still carries `log_bin_trust_function_creators` with "0",
and `binlog_format` with "ROW" (the second example table of the spec). -/
theorem mysql_parameters_always_present_witness :
    getCustomParameters baseSvc 0 { DbType := "mysql", BinaryLogFormat := "ROW" } {}
      = some (.ok ([("mysql", mysqlCustomParams { DbType := "mysql", BinaryLogFormat := "ROW" } {})],
          { DbType := "mysql", BinaryLogFormat := "ROW" }))
    ∧ assocLookup (mysqlCustomParams { DbType := "mysql", BinaryLogFormat := "ROW" } {})
        "log_bin_trust_function_creators" = some "0"
    ∧ assocLookup (mysqlCustomParams { DbType := "mysql", BinaryLogFormat := "ROW" } {})
        "binlog_format" = some "ROW" := by
  have h := mysql_parameters_always_present baseSvc 0
    { DbType := "mysql", BinaryLogFormat := "ROW" } {} rfl
  exact ⟨h.1, h.2.1, h.2.2 (by decide)⟩

/-- A one-page control plane whose single page binds
`shared_preload_libraries` to `pg_cron`. -/
def matchPageSvc : Svc :=
  { baseSvc with
    describeEngineDefaultParameters := fun _ _ =>
      .ok { parameters := [("shared_preload_libraries", "pg_cron")], marker := none } }

/-- If every page along the run is fetched successfully and holds no match,
any result the pagination loop produces is the empty string with no error. -/
theorem defaultParamLoop_no_match_ok_empty (svc : Svc) (family paramName : String)
    (hsvc : ∀ marker, ∃ page,
      svc.describeEngineDefaultParameters family marker = .ok page
      ∧ findParamValue page.parameters paramName = none) :
    ∀ (fuel : Nat) (marker : Option String) (r : Except AwsErr String),
      defaultParamLoop svc family paramName marker fuel = some r → r = .ok "" := by
  intro fuel
  induction fuel with
  | zero => intro marker r h; cases h
  | succ n ih =>
    intro marker r h
    obtain ⟨page, hp, hnm⟩ := hsvc marker
    rw [defaultParamLoop, hp] at h
    simp only [hnm] at h
    by_cases hm : markerDone page.marker = true
    · rw [if_pos hm] at h
      cases h
      rfl
    · rw [if_neg hm] at h
      exact ih page.marker r h

/-- C8: when every page of the catalog is fetched without error and none
matches, any value the lookup returns is the empty string with no error
(absence is not an error); the loop returns the empty string the moment a
matchless page carries an empty or absent marker; and on a page containing a
match it returns that parameter's value immediately. -/
theorem default_lookup_absence_not_error :
    (∀ (svc : Svc) (fuel : Nat) (paramName : String) (i : RDSInstance)
        (v : String) (i1 : RDSInstance),
      getDefaultEngineParameter svc fuel paramName i = some (.ok (v, i1)) →
      (∀ marker, ∃ page,
        svc.describeEngineDefaultParameters i1.ParameterGroupFamily marker = .ok page
        ∧ findParamValue page.parameters paramName = none) →
      v = "")
    ∧ (∀ (svc : Svc) (family paramName : String) (marker : Option String)
        (page : EngineDefaultsPage) (fuel : Nat),
      svc.describeEngineDefaultParameters family marker = .ok page →
      findParamValue page.parameters paramName = none →
      markerDone page.marker = true →
      defaultParamLoop svc family paramName marker (fuel + 1) = some (.ok ""))
    ∧ (∀ (svc : Svc) (family paramName : String) (marker : Option String)
        (page : EngineDefaultsPage) (v : String) (fuel : Nat),
      svc.describeEngineDefaultParameters family marker = .ok page →
      findParamValue page.parameters paramName = some v →
      defaultParamLoop svc family paramName marker (fuel + 1) = some (.ok v)) := by
  refine ⟨?_, ?_, ?_⟩
  · intro svc fuel paramName i v i1 h hsvc
    unfold getDefaultEngineParameter at h
    split at h
    · cases h
    · cases h
    · rename_i j heqFam
      split at h
      · cases h
      · cases h
      · rename_i v' heqLoop
        cases h
        have hr := defaultParamLoop_no_match_ok_empty svc i1.ParameterGroupFamily paramName
          hsvc fuel none (.ok v) heqLoop
        cases hr
        rfl
  · intro svc family paramName marker page fuel h1 h2 h3
    rw [defaultParamLoop, h1]
    simp only [h2]
    rw [if_pos h3]
  · intro svc family paramName marker page v fuel h1 h2
    rw [defaultParamLoop, h1]
    simp only [h2]

/-- C8 witness: against the empty one-page control plane the lookup of a
postgres instance returns the empty string with no error, and against the
one-page control plane binding `shared_preload_libraries` to `pg_cron` the
loop returns "pg_cron" in one step. -/
theorem default_lookup_absence_not_error_witness :
    getDefaultEngineParameter baseSvc 1 "shared_preload_libraries"
      { DbType := "postgres", DbVersion := "12" }
      = some (.ok ("",
          { DbType := "postgres", DbVersion := "12", ParameterGroupFamily := "postgres12" }))
    ∧ ("" : String) = ""
    ∧ defaultParamLoop matchPageSvc "postgres12" "shared_preload_libraries" none 1
      = some (.ok "pg_cron") := by
  refine ⟨by decide, ?_, ?_⟩
  · exact default_lookup_absence_not_error.1 baseSvc 1 "shared_preload_libraries"
      { DbType := "postgres", DbVersion := "12" } ""
      { DbType := "postgres", DbVersion := "12", ParameterGroupFamily := "postgres12" }
      (by decide)
      (fun marker => ⟨{ parameters := [], marker := none }, rfl, rfl⟩)
  · exact default_lookup_absence_not_error.2.2 matchPageSvc "postgres12"
      "shared_preload_libraries" none
      { parameters := [("shared_preload_libraries", "pg_cron")], marker := none }
      "pg_cron" 0 rfl (by decide)

/-- C9: in every cleanup sweep — whatever the listed pages and the outcome of
each delete call — only names starting with the broker prefix are ever
deleted; the attempted deletions are exactly the prefix-matching names of all
pages, in order, so no delete failure aborts the rest of the sweep; and a
delete failure with the in-use error code `InvalidDBParameterGroupState` is
never logged as a fault. -/
theorem cleanup_sweep_safety (pages : List (List String))
    (deleteFn : String → Except AwsErr Unit) :
    (∀ name, name ∈ (cleanupCustomParameterGroups pages deleteFn).1 →
      matchesGroupPrefix name = true)
    ∧ (cleanupCustomParameterGroups pages deleteFn).1
      = pages.flatten.filter (fun n => matchesGroupPrefix n)
    ∧ (∀ name e, deleteFn name = .error e → e.code = "InvalidDBParameterGroupState" →
      name ∉ (cleanupCustomParameterGroups pages deleteFn).2) := by
  have attempts : ∀ l : List String,
      (sweepNames deleteFn l).1 = l.filter (fun n => matchesGroupPrefix n) := by
    intro l
    induction l with
    | nil => rfl
    | cons name rest ih =>
      simp only [sweepNames, List.filter]
      cases hm : matchesGroupPrefix name with
      | false => simp [sweepGroupName, hm, ih]
      | true =>
        cases hd : deleteFn name with
        | ok u => simp [sweepGroupName, hm, hd, ih]
        | error e =>
          by_cases hc : e.code = "InvalidDBParameterGroupState" <;>
            simp [sweepGroupName, hm, hd, hc, ih]
  refine ⟨?_, attempts pages.flatten, ?_⟩
  · intro name hmem
    rw [cleanupCustomParameterGroups, attempts pages.flatten] at hmem
    exact (List.mem_filter.mp hmem).2
  · intro name e hd hc
    show name ∉ (sweepNames deleteFn pages.flatten).2
    induction pages.flatten with
    | nil => simp [sweepNames]
    | cons x rest ih =>
      simp only [sweepNames, List.mem_append]
      rintro (hx | hx)
      · unfold sweepGroupName at hx
        split_ifs at hx with h1
        · cases hdx : deleteFn x with
          | ok u => rw [hdx] at hx; cases hx
          | error ex =>
            rw [hdx] at hx
            by_cases hcx : ex.code = "InvalidDBParameterGroupState"
            · simp [hcx] at hx
            · simp [hcx] at hx
              subst hx
              rw [hd] at hdx
              cases hdx
              exact hcx hc
        · cases hx
      · exact ih hx

/-- The delete outcomes used by the C9 witness: the first broker group is in
use, everything else deletes cleanly. -/
def c9deleteFn (name : String) : Except AwsErr Unit :=
  if name = "cg-aws-broker-a" then
    .error ⟨"InvalidDBParameterGroupState", "in use"⟩
  else .ok ()

/-- C9 witness: over two listed pages, the sweep attempts exactly the two
prefix-matching groups — the in-use failure on the first does not stop the
second — and the in-use failure is not logged as a fault. -/
theorem cleanup_sweep_safety_witness :
    (cleanupCustomParameterGroups [["cg-aws-broker-a", "other-b"], ["cg-aws-broker-c"]] c9deleteFn).1
      = ["cg-aws-broker-a", "cg-aws-broker-c"]
    ∧ "cg-aws-broker-a"
      ∉ (cleanupCustomParameterGroups [["cg-aws-broker-a", "other-b"], ["cg-aws-broker-c"]] c9deleteFn).2 := by
  constructor
  · rw [(cleanup_sweep_safety [["cg-aws-broker-a", "other-b"], ["cg-aws-broker-c"]] c9deleteFn).2.1]
    rfl
  · exact (cleanup_sweep_safety [["cg-aws-broker-a", "other-b"], ["cg-aws-broker-c"]] c9deleteFn).2.2
      "cg-aws-broker-a" ⟨"InvalidDBParameterGroupState", "in use"⟩
      rfl rfl

/-- A control plane whose default-engine-version query returns one version
with a present family string. -/
def goodVersionsSvc : Svc :=
  { baseSvc with
    describeDBEngineVersions := fun _ =>
      .ok [{ DBParameterGroupFamily := some "postgres12" }] }

/-- C10: if every successful describe-default-engine-versions response holds
at least one version whose family pointer is present, the family resolver
never reaches its dereference fault; and without that hypothesis it faults
concretely — on the control plane answering with an empty version list and a
blank instance, the resolver faults instead of returning an error. -/
theorem family_resolver_deref_safety :
    (∀ (svc : Svc) (i : RDSInstance),
      (∀ vs, svc.describeDBEngineVersions i.DbType = .ok vs →
        ∃ v rest, vs = v :: rest ∧ (v.DBParameterGroupFamily).isSome = true) →
      getParameterGroupFamily svc i ≠ .fault)
    ∧ getParameterGroupFamily emptyVersionsSvc {} = .fault := by
  constructor
  · intro svc i h
    unfold getParameterGroupFamily
    split_ifs with h1 h2
    · simp
    · cases hv : svc.describeDBEngineVersions i.DbType with
      | error e => simp
      | ok vs =>
        obtain ⟨v, rest, hvs, hsome⟩ := h vs hv
        subst hvs
        cases hf : v.DBParameterGroupFamily with
        | none => rw [hf] at hsome; cases hsome
        | some fam => simp [hf]
    · simp
  · decide

/-- C10 witness: the no-fault conclusion applied to the control plane whose
version list is non-empty with a present family. -/
theorem family_resolver_deref_safety_witness :
    getParameterGroupFamily goodVersionsSvc {} ≠ .fault :=
  family_resolver_deref_safety.1 goodVersionsSvc {}
    (fun vs hv => by
      cases hv
      exact ⟨{ DBParameterGroupFamily := some "postgres12" }, [], rfl, rfl⟩)

end AwsBroker
